import Mathlib

/-!
Verification of the JobSwipe automation orchestration and outcome-classification
layer, shallowly embedded from the Python sources:

  * `src/apps/desktop/companies/base/result_handler.py`
  * `src/packages/automation-engine/src/core/execution_context.py`
  * `src/packages/automation-engine/src/core/proxy_manager.py`
  * `src/packages/automation-engine/src/core/automation_engine.py`
  * `src/apps/api/src/companies/base/user_profile.py`
  * `src/packages/automation-engine/src/companies/base/base_automation.py`

Python strings are Lean `String`, Python `in` on strings is the executable
substring test `strIn`, timestamps are abstract `Nat` clock values (the claims
never observe concrete wall-clock values, only which fields get stamped), and
fallible operations return `Except`/`Option`.
-/

/-! ## String primitives (executable models of the Python string operations) -/

/-- `leadMatch n h` is true when the character list `n` is an initial segment
of `h` (building block of the substring test). -/
def leadMatch : List Char → List Char → Bool
  | [], _ => true
  | _ :: _, [] => false
  | a :: as, b :: bs => a == b && leadMatch as bs

/-- `hasSub n h` is true when `n` occurs as a contiguous substring of `h`;
this is the Python expression `n in h` on character lists. -/
def hasSub (n : List Char) : List Char → Bool
  | [] => leadMatch n []
  | c :: t => leadMatch n (c :: t) || hasSub n t

/-- Python `n in h` for strings. -/
def strIn (n h : String) : Bool := hasSub n.data h.data

/-- Python `s.lower()` (all source strings are ASCII). -/
def lowerStr (s : String) : String := ⟨s.data.map Char.toLower⟩

/-- Python `s.upper()` (all source strings are ASCII). -/
def upperStr (s : String) : String := ⟨s.data.map Char.toUpper⟩

/-- `breakSub sep h` splits `h` around the first occurrence of `sep`,
returning the part before and the part after, or `none` when `sep` does not
occur (for nonempty `sep`). -/
def breakSub (sep : List Char) : List Char → Option (List Char × List Char)
  | [] => none
  | c :: t =>
    if leadMatch sep (c :: t) then some ([], (c :: t).drop sep.length)
    else
      match breakSub sep t with
      | some (b, a) => some (c :: b, a)
      | none => none

/-- Fuel-driven worker for `splitSub`; each found separator strictly shortens
the rest of the haystack, so `h.length + 1` units of fuel always suffice. -/
def splitSubGo (sep : List Char) : Nat → List Char → List (List Char)
  | 0, h => [h]
  | fuel + 1, h =>
    match breakSub sep h with
    | none => [h]
    | some (b, a) => b :: splitSubGo sep fuel a

/-- Python `h.split(sep)` for a nonempty separator `sep`. -/
def splitSub (sep h : List Char) : List (List Char) :=
  splitSubGo sep (h.length + 1) h

/-- Python `s.split()` with no argument: split on whitespace runs, dropping
empty tokens. -/
def wsTokens (h : List Char) : List (List Char) :=
  (h.foldr
    (fun c acc =>
      if c.isWhitespace then [] :: acc
      else
        match acc with
        | [] => [[c]]
        | t :: rest => (c :: t) :: rest)
    []).filter (fun t => t ≠ [])

/-- Python `d.get(k, default)` over the string-to-string dictionaries that the
automation steps carry as metadata. -/
def metaGet (m : List (String × String)) (k d : String) : String :=
  match m.find? (fun p => p.1 == k) with
  | some p => p.2
  | none => d

/-! ## result_handler.py — statuses, steps, `ApplicationResult` -/

/-- `ApplicationStatus` enum of `result_handler.py`. -/
inductive ApplicationStatus where
  | SUCCESS
  | FAILED
  | CAPTCHA_REQUIRED
  | LOGIN_REQUIRED
  | TIMEOUT
  | RATE_LIMITED
  | FORM_ERROR
  | NETWORK_ERROR
  | UNKNOWN_ERROR
deriving DecidableEq, BEq, Repr

/-- `AutomationStep` model of `result_handler.py` (the datetime timestamp is an
abstract `Nat` clock value; metadata is an association list). -/
structure AutomationStep where
  step_name : String
  action : String
  timestamp : Nat
  success : Bool
  duration_ms : Option Nat
  screenshot_path : Option String
  error_message : Option String
  metadata : List (String × String)
deriving DecidableEq, Repr

/-- `ApplicationResult` model of `result_handler.py`. Captcha events, raw
output, browser logs and performance metrics are not read or written by any of
the operations under verification and are omitted. -/
structure ApplicationResult where
  job_id : String
  user_id : Option String
  status : ApplicationStatus
  success : Bool
  started_at : Nat
  completed_at : Option Nat
  total_duration_ms : Option Nat
  confirmation_number : Option String
  company_automation : String
  steps_completed : Nat
  total_steps : Nat
  error_message : Option String
  error_type : Option String
  steps : List AutomationStep
  screenshots : List String
deriving DecidableEq, Repr

/-- Construction of an `ApplicationResult` through the pydantic
`success_matches_status` validator: a (status, success) pair with
`success ≠ (status == SUCCESS)` is rejected with a `ValueError`. Fields not
passed by any caller in the repository keep their pydantic defaults. -/
def mkApplicationResult (job_id : String) (user_id : Option String)
    (status : ApplicationStatus) (success : Bool) (started_at : Nat)
    (company_automation : String) (total_steps : Nat) :
    Except String ApplicationResult :=
  if status = ApplicationStatus.SUCCESS ∧ success = false then
    Except.error "Success must be True when status is SUCCESS"
  else if status ≠ ApplicationStatus.SUCCESS ∧ success = true then
    Except.error "Success must be False when status is not SUCCESS"
  else
    Except.ok
      { job_id := job_id
        user_id := user_id
        status := status
        success := success
        started_at := started_at
        completed_at := none
        total_duration_ms := none
        confirmation_number := none
        company_automation := company_automation
        steps_completed := 0
        total_steps := total_steps
        error_message := none
        error_type := none
        steps := []
        screenshots := [] }

/-- `ApplicationResult.add_step`: appends one `AutomationStep` stamped `now`
and increments `steps_completed` exactly when the step succeeded. -/
def ApplicationResult.add_step (r : ApplicationResult) (step_name action : String)
    (success : Bool) (duration_ms : Option Nat) (screenshot_path : Option String)
    (error_message : Option String) (metadata : List (String × String))
    (now : Nat) : ApplicationResult :=
  { r with
    steps := r.steps ++
      [{ step_name := step_name
         action := action
         timestamp := now
         success := success
         duration_ms := duration_ms
         screenshot_path := screenshot_path
         error_message := error_message
         metadata := metadata }]
    steps_completed := if success then r.steps_completed + 1 else r.steps_completed }

/-- `ApplicationResult.set_completed`: stamps `completed_at`, sets the status,
derives `success = (status == SUCCESS)` and the duration, and overwrites the
confirmation number only when a truthy (nonempty) one is supplied. -/
def ApplicationResult.set_completed (r : ApplicationResult)
    (status : ApplicationStatus) (confirmation_number : Option String)
    (now : Nat) : ApplicationResult :=
  { r with
    completed_at := some now
    status := status
    success := status == ApplicationStatus.SUCCESS
    total_duration_ms := some ((now - r.started_at) * 1000)
    confirmation_number :=
      match confirmation_number with
      | some c => if c != "" then some c else r.confirmation_number
      | none => r.confirmation_number }

/-- `ApplicationResult.set_failed`: sets the passed status (default `FAILED`
at call sites), forces `success = False`, records the error message and kind,
and stamps `completed_at` and the duration. -/
def ApplicationResult.set_failed (r : ApplicationResult) (error_message : String)
    (error_type : Option String) (status : ApplicationStatus)
    (now : Nat) : ApplicationResult :=
  { r with
    status := status
    success := false
    error_message := some error_message
    error_type := error_type
    completed_at := some now
    total_duration_ms := some ((now - r.started_at) * 1000) }

/-- One recorded `add_step` call: the arguments of
`ApplicationResult.add_step`, including the clock value at the call. -/
structure StepCall where
  step_name : String
  action : String
  success : Bool
  duration_ms : Option Nat
  screenshot_path : Option String
  error_message : Option String
  metadata : List (String × String)
  now : Nat
deriving DecidableEq, Repr

/-- The `AutomationStep` that `add_step` appends for a given call. -/
def stepOfCall (c : StepCall) : AutomationStep :=
  { step_name := c.step_name
    action := c.action
    timestamp := c.now
    success := c.success
    duration_ms := c.duration_ms
    screenshot_path := c.screenshot_path
    error_message := c.error_message
    metadata := c.metadata }

/-- Replay one recorded `add_step` call. -/
def ApplicationResult.applyStepCall (r : ApplicationResult) (c : StepCall) :
    ApplicationResult :=
  r.add_step c.step_name c.action c.success c.duration_ms c.screenshot_path
    c.error_message c.metadata c.now

/-- Replay a sequence of `add_step` calls, oldest first. -/
def ApplicationResult.applySteps (r : ApplicationResult) (calls : List StepCall) :
    ApplicationResult :=
  calls.foldl ApplicationResult.applyStepCall r

/-! ## execution_context.py — `ProxyConfig.to_playwright_proxy` -/

/-- `ProxyConfig` model of `execution_context.py`. -/
structure ProxyConfig where
  enabled : Bool
  host : Option String
  port : Option Nat
  username : Option String
  password : Option String
  type : String
  rotation_enabled : Bool
deriving DecidableEq, Repr

/-- The Playwright proxy dictionary built by `to_playwright_proxy`. -/
structure PlaywrightProxy where
  server : String
  username : Option String
  password : Option String
deriving DecidableEq, Repr

/-- Rendering of an optional port inside the Python f-string
`f"{self.type}://{self.host}:{self.port}"` (`None` prints as `"None"`). -/
def showOptNat : Option Nat → String
  | some n => toString n
  | none => "None"

/-- `ProxyConfig.to_playwright_proxy`: returns `None` when disabled or the
host is falsy, and otherwise composes the server string directly as
`f"{self.type}://{self.host}:{self.port}"` from the stored host, with
credentials attached only when both are truthy. -/
def ProxyConfig.to_playwright_proxy (c : ProxyConfig) : Option PlaywrightProxy :=
  if c.enabled = false then none
  else
    match c.host with
    | none => none
    | some h =>
      if h != "" then
        some
          { server := c.type ++ "://" ++ h ++ ":" ++ showOptNat c.port
            username :=
              match c.username, c.password with
              | some u, some p => if u != "" && p != "" then some u else none
              | _, _ => none
            password :=
              match c.username, c.password with
              | some u, some p => if u != "" && p != "" then some p else none
              | _, _ => none }
      else none

/-! ## proxy_manager.py — the rotation pool -/

/-- `ProxyServer` entry of `proxy_manager.py`. The floating-point
`success_rate` score and `last_used` timestamp are read and written only by the
scoring methods, which none of the modelled operations touch; they are
omitted. -/
structure ProxyServer where
  host : String
  port : Nat
  username : Option String
  password : Option String
  type : String
  country : Option String
deriving DecidableEq, Repr

/-- The mutable state of a `ProxyManager`: the pool and the rotation index. -/
structure ProxyManagerState where
  proxies : List ProxyServer
  current_index : Nat
deriving DecidableEq, Repr

/-- A fresh `ProxyManager()` with no initial proxy list. -/
def ProxyManagerState.init : ProxyManagerState :=
  { proxies := [], current_index := 0 }

/-- `ProxyManager.add_proxy`: appends a new entry to the pool. -/
def ProxyManagerState.add_proxy (s : ProxyManagerState) (host : String)
    (port : Nat) (username : Option String) (password : Option String)
    (type : String) (country : Option String) : ProxyManagerState :=
  { s with
    proxies := s.proxies ++
      [{ host := host, port := port, username := username,
         password := password, type := type, country := country }] }

/-- `ProxyManager.remove_proxy`: filters out every entry with the given host
and port; the rotation index is left untouched. -/
def ProxyManagerState.remove_proxy (s : ProxyManagerState) (host : String)
    (port : Nat) : ProxyManagerState :=
  { s with
    proxies := s.proxies.filter (fun p => !(p.host == host && p.port == port)) }

/-- `ProxyManager.clear_proxies`: empties the pool and resets the index. -/
def ProxyManagerState.clear_proxies (_s : ProxyManagerState) : ProxyManagerState :=
  { proxies := [], current_index := 0 }

/-- The `ProxyConfig` that `get_next_proxy` builds from a pool entry. -/
def proxyConfigOfServer (p : ProxyServer) : ProxyConfig :=
  { enabled := true
    host := some p.host
    port := some p.port
    username := p.username
    password := p.password
    type := p.type
    rotation_enabled := false }

/-- `ProxyManager.get_next_proxy`: `None` on an empty pool; otherwise the code
indexes `self.proxies[self.current_index]` and advances the index modulo the
pool size. When the stored index is out of range (the pool shrank), the Python
list indexing raises `IndexError`, modelled as `Except.error`. -/
def ProxyManagerState.get_next_proxy (s : ProxyManagerState) :
    Except String (Option ProxyConfig × ProxyManagerState) :=
  if s.proxies = [] then Except.ok (none, s)
  else if h : s.current_index < s.proxies.length then
    Except.ok
      (some (proxyConfigOfServer (s.proxies.get ⟨s.current_index, h⟩)),
       { s with current_index := (s.current_index + 1) % s.proxies.length })
  else Except.error "IndexError: list index out of range"

/-! ## automation_engine.py and user_profile.py — ATS dispatch -/

/-- `AutomationEngine.detect_company_type`: first-match substring dispatch over
the lowercased job URL, in the source order of the branches. -/
def detect_company_type (job_url : String) : String :=
  let u := lowerStr job_url
  if strIn "linkedin.com" u then "linkedin"
  else if strIn "greenhouse.io" u || strIn "boards.greenhouse.io" u then "greenhouse"
  else if strIn "lever.co" u || strIn "jobs.lever.co" u then "lever"
  else if strIn "myworkdayjobs.com" u || strIn "workday.com" u then "workday"
  else if strIn "indeed.com" u then "indeed"
  else if strIn "bamboohr.com" u then "bamboohr"
  else "generic"

/-- The URL fallback chain of `JobData.get_company_identifier`, in the source
order of the branches. -/
def get_company_identifier_url (apply_url : String) : String :=
  let u := lowerStr apply_url
  if strIn "greenhouse.io" u then "greenhouse"
  else if strIn "lever.co" u then "lever"
  else if strIn "myworkday.com" u || strIn "workday.com" u then "workday"
  else if strIn "linkedin.com" u then "linkedin"
  else if strIn "indeed.com" u then "indeed"
  else if strIn "jobvite.com" u then "jobvite"
  else "generic"

/-- `JobData.get_company_identifier`: an explicit truthy `job_board` override
wins (lowercased); otherwise the URL fallback chain decides. -/
def get_company_identifier (job_board : Option String) (apply_url : String) :
    String :=
  match job_board with
  | some jb =>
    if jb != "" then lowerStr jb
    else get_company_identifier_url apply_url
  | none => get_company_identifier_url apply_url

/-- The dispatch table that `detect_company_type` actually implements, written
as first-match precedence over (substring, identifier) pairs; the redundant
`boards.greenhouse.io` and `jobs.lever.co` alternatives of the source collapse
into their shorter patterns. -/
def detectTable : List (String × String) :=
  [("linkedin.com", "linkedin"), ("greenhouse.io", "greenhouse"),
   ("lever.co", "lever"), ("myworkdayjobs.com", "workday"),
   ("workday.com", "workday"), ("indeed.com", "indeed"),
   ("bamboohr.com", "bamboohr")]

/-- First-match lookup over a substring dispatch table, with a default. -/
def firstMatchATS (table : List (String × String)) (u : String) : String :=
  match table with
  | [] => "generic"
  | (pat, ident) :: rest =>
    if strIn pat u then ident else firstMatchATS rest u

/-! ## base_automation.py — outcome classification and the apply lifecycle -/

/-- The success keywords scanned (lowercased) in the agent history final
result. -/
def success_keywords : List String :=
  ["success", "submitted", "complete", "thank you", "confirmation"]

/-- The success indicators scanned (lowercased) in the final page text. -/
def page_success_indicators : List String :=
  ["thank you", "application submitted", "successfully applied",
   "confirmation", "received your application", "application complete"]

/-- The observable behaviour of one agent execution, as
`_process_automation_result` reads it: the agent history final result text
(`none` when there is no history or no final result), the stringified agent
memory (`none` when the agent has no memory attribute), the final page body
text, and whether reading the final page succeeds (`page_ok = false` models
the page inspection raising, which the method catches itself). -/
structure AgentRun where
  final_result : Option String
  memory : Option String
  page_text : String
  page_ok : Bool
  page_err : String
deriving DecidableEq, Repr

/-- Whether the history final result triggers the success-keyword branch:
a truthy (nonempty) string containing one of `success_keywords` after
lowercasing. -/
def frKeywordHit : Option String → Bool
  | some fr => fr != "" && success_keywords.any (fun k => strIn k (lowerStr fr))
  | none => false

/-- Whether the agent memory is free of all five transcript markers
(`SUCCESS:`, `CONFIRMATION:`, `CAPTCHA` case-insensitively, `ERROR:`,
`FAILED:`). An absent memory is trivially marker-free. -/
def memMarkerFree : Option String → Bool
  | some m =>
    !(strIn "SUCCESS:" m) && !(strIn "CONFIRMATION:" m) &&
    !(strIn "CAPTCHA" (upperStr m)) && !(strIn "ERROR:" m) && !(strIn "FAILED:" m)
  | none => true

/-- Whether the final page text is free of every fixed success indicator. -/
def pageKeywordFree (t : String) : Bool :=
  page_success_indicators.all (fun ind => !(strIn ind (lowerStr t)))

/-- The fallback branch of `_process_automation_result`: inspect the final
page text for the fixed success indicators; classify SUCCESS when one is
found, otherwise FAILED with kind `UNCLEAR_RESULT`. A failure while reading
the page is caught by the surrounding handler and classified FAILED with kind
`PROCESSING_ERROR`. -/
def pageBranch (extract_conf : String → Option String) (run : AgentRun)
    (r : ApplicationResult) (now : Nat) : ApplicationResult :=
  if run.page_ok then
    let found := page_success_indicators.filter
      (fun ind => strIn ind (lowerStr run.page_text))
    if found ≠ [] then
      let conf := extract_conf run.page_text
      (r.set_completed ApplicationStatus.SUCCESS conf now).add_step
        "confirm" "Detected success on final page" true none none none
        [("page_indicators", String.intercalate "," found),
         ("confirmation_id", conf.getD "")] now
    else
      r.set_failed "No clear success indicators found" (some "UNCLEAR_RESULT")
        ApplicationStatus.FAILED now
  else
    r.set_failed ("Result processing failed: " ++ run.page_err)
      (some "PROCESSING_ERROR") ApplicationStatus.FAILED now

/-- The agent-memory branch of `_process_automation_result`: `SUCCESS:` or
`CONFIRMATION:` markers classify SUCCESS with the first whitespace token after
the marker as confirmation id; otherwise a case-insensitive `CAPTCHA`
classifies CAPTCHA_REQUIRED; otherwise `ERROR:`/`FAILED:` classify FORM_ERROR
with the text up to the next newline as message; otherwise fall through to the
page inspection. A falsy (absent or empty) memory falls through directly. -/
def memoryBranch (extract_conf : String → Option String) (run : AgentRun)
    (r : ApplicationResult) (now : Nat) : ApplicationResult :=
  match run.memory with
  | some mem =>
    if mem != "" then
      if strIn "SUCCESS:" mem || strIn "CONFIRMATION:" mem then
        let parts :=
          if strIn "SUCCESS:" mem then splitSub "SUCCESS:".data mem.data
          else splitSub "CONFIRMATION:".data mem.data
        match parts[1]? with
        | some part =>
          let conf := (wsTokens part).head?.map (fun t => String.mk t)
          (r.set_completed ApplicationStatus.SUCCESS conf now).add_step
            "confirm" "Extract confirmation details from memory" true none none
            none [("confirmation_id", conf.getD "")] now
        | none => pageBranch extract_conf run r now
      else if strIn "CAPTCHA" (upperStr mem) then
        r.set_failed "Captcha detected - manual intervention required"
          (some "CAPTCHA_REQUIRED") ApplicationStatus.CAPTCHA_REQUIRED now
      else if strIn "ERROR:" mem || strIn "FAILED:" mem then
        let parts :=
          if strIn "ERROR:" mem then splitSub "ERROR:".data mem.data
          else splitSub "FAILED:".data mem.data
        let emsg :=
          match parts[1]? with
          | some part => String.mk (part.takeWhile (fun c => c ≠ '\n'))
          | none => "Unknown error"
        r.set_failed emsg (some "FORM_ERROR") ApplicationStatus.FORM_ERROR now
      else pageBranch extract_conf run r now
    else pageBranch extract_conf run r now
  | none => pageBranch extract_conf run r now

/-- `BaseJobAutomation._process_automation_result`: the classification ladder.
First the agent history final result is scanned for lowercase success
keywords (classifying SUCCESS); then the agent memory markers; then the final
page text. `extract_conf` abstracts `ResultProcessor.extract_confirmation_number`
(a regex scan whose output only feeds the confirmation number). -/
def process_automation_result (extract_conf : String → Option String)
    (run : AgentRun) (r : ApplicationResult) (now : Nat) : ApplicationResult :=
  match run.final_result with
  | some fr =>
    if fr != "" && success_keywords.any (fun k => strIn k (lowerStr fr)) then
      let conf := extract_conf fr
      (r.set_completed ApplicationStatus.SUCCESS conf now).add_step
        "confirm" "Application completed successfully" true none none none
        [("final_result", fr), ("confirmation_id", conf.getD "")] now
    else memoryBranch extract_conf run r now
  | none => memoryBranch extract_conf run r now

/-- One attempt of `BaseJobAutomation.apply_to_job`, seen through the
operations that can raise: `can_handle` is the URL check, `llm_ok` and
`create_ok` the LLM fetch and browser-session construction (both before the
inner try/finally), `start_ok` the browser start, `run_ok` the agent
execution, and `stop_ok` the browser stop inside the `finally`. `agent_run`
is what classification reads, `screenshot_path` is what `_take_screenshot`
returns (it catches its own failures and returns the empty string), and
`exc_text` is the stringified exception when one of the fallible operations
raises. -/
structure Attempt where
  can_handle : Bool
  llm_ok : Bool
  create_ok : Bool
  start_ok : Bool
  run_ok : Bool
  stop_ok : Bool
  agent_run : AgentRun
  screenshot_path : String
  exc_text : String
deriving DecidableEq, Repr

/-- `BaseJobAutomation.apply_to_job`: builds the pending result (status
FAILED, `total_steps = 5`), runs validation, LLM fetch and browser-session
creation, then the inner try (start, initialize step, agent run, execute step,
classification, final screenshot) with a `finally` that stops the browser
session, then the finalize block; any raise is caught by the outer handler,
which finalizes the current result as FAILED with kind `AUTOMATION_ERROR`.
Returns the final `ApplicationResult` together with the number of times the
browser session stop operation was invoked. -/
def apply_to_job (extract_conf : String → Option String) (o : Attempt)
    (job_id : String) (user_id : Option String) (company : String)
    (t : Nat) : ApplicationResult × Nat :=
  let r0 : ApplicationResult :=
    { job_id := job_id
      user_id := user_id
      status := ApplicationStatus.FAILED
      success := false
      started_at := t
      completed_at := none
      total_duration_ms := none
      confirmation_number := none
      company_automation := company
      steps_completed := 0
      total_steps := 5
      error_message := none
      error_type := none
      steps := []
      screenshots := [] }
  if o.can_handle then
    if o.llm_ok then
      if o.create_ok then
        -- the browser session now exists; the finally clause below runs stop
        -- exactly once on every exit of the inner block
        if o.start_ok then
          let r1 := r0.add_step "initialize" "Initialize browser and AI agent"
            true (some 2000) none none [] t
          if o.run_ok then
            let r2 := r1.add_step "execute" "Execute AI automation" true none
              none none
              [("agent_steps", ""), ("agent_n_steps", ""), ("history_items", "")] t
            let r3 := process_automation_result extract_conf o.agent_run r2 t
            let r4 :=
              if o.screenshot_path != "" then
                { r3 with screenshots := r3.screenshots ++ [o.screenshot_path] }
              else r3
            -- finally: browser stop (first and only invocation on this path)
            if o.stop_ok then
              if r4.status = ApplicationStatus.FAILED then
                let inds := r4.steps.filter (fun s =>
                  s.success &&
                  strIn "success" (lowerStr (metaGet s.metadata "agent_result" "")))
                if inds ≠ [] then
                  (r4.set_completed ApplicationStatus.SUCCESS none t, 1)
                else
                  (r4.set_failed "Application process completed but success unclear"
                    none ApplicationStatus.FAILED t, 1)
              else (r4, 1)
            else
              (r4.set_failed ("Automation failed: " ++ o.exc_text)
                (some "AUTOMATION_ERROR") ApplicationStatus.FAILED t, 1)
          else
            (r1.set_failed ("Automation failed: " ++ o.exc_text)
              (some "AUTOMATION_ERROR") ApplicationStatus.FAILED t, 1)
        else
          (r0.set_failed ("Automation failed: " ++ o.exc_text)
            (some "AUTOMATION_ERROR") ApplicationStatus.FAILED t, 1)
      else
        (r0.set_failed ("Automation failed: " ++ o.exc_text)
          (some "AUTOMATION_ERROR") ApplicationStatus.FAILED t, 0)
    else
      (r0.set_failed ("Automation failed: " ++ o.exc_text)
        (some "AUTOMATION_ERROR") ApplicationStatus.FAILED t, 0)
  else
    (r0.set_failed ("Automation failed: " ++ o.exc_text)
      (some "AUTOMATION_ERROR") ApplicationStatus.FAILED t, 0)


/-! ## Concrete instances used by the theorems below -/

/-- The pending result produced by
`ApplicationResult(status=FAILED, success=False, total_steps=5, ...)`. -/
def sampleFailedResult : ApplicationResult :=
  { job_id := "job-1", user_id := none, status := ApplicationStatus.FAILED,
    success := false, started_at := 0, completed_at := none,
    total_duration_ms := none, confirmation_number := none,
    company_automation := "generic", steps_completed := 0, total_steps := 5,
    error_message := none, error_type := none, steps := [], screenshots := [] }

/-- A pending result created with `total_steps = 1`. -/
def sampleResultT1 : ApplicationResult :=
  { sampleFailedResult with job_id := "job-9", total_steps := 1 }

/-- Two successful `add_step` calls. -/
def twoGoodCalls : List StepCall :=
  [{ step_name := "navigate", action := "Navigate to application page",
     success := true, duration_ms := some 2000, screenshot_path := none,
     error_message := none, metadata := [], now := 1 },
   { step_name := "fill_form", action := "Fill application form",
     success := true, duration_ms := some 5000, screenshot_path := none,
     error_message := none, metadata := [], now := 2 }]

/-- One successful `add_step` call. -/
def oneGoodCall : List StepCall :=
  [{ step_name := "navigate", action := "Navigate to application page",
     success := true, duration_ms := some 2000, screenshot_path := none,
     error_message := none, metadata := [], now := 1 }]

/-- The proxy configuration of the host-sanitization scenario: host
`"http://proxy.x.com"`, port `8080`, scheme `"http"`. -/
def cfgC4 : ProxyConfig :=
  { enabled := true, host := some "http://proxy.x.com", port := some 8080,
    username := none, password := none, type := "http",
    rotation_enabled := false }

/-- A pool holding proxies `a.proxy:1080` and `b.proxy:1081`, built by two
`add_proxy` calls on a fresh manager. -/
def pmTwo : ProxyManagerState :=
  (ProxyManagerState.init.add_proxy "a.proxy" 1080 none none "http" none).add_proxy
    "b.proxy" 1081 none none "http" none

/-- The pool state after one `get_next_proxy` call on `pmTwo`: the rotation
index has advanced to 1. -/
def pmTwoAfterNext : ProxyManagerState :=
  { proxies :=
      [{ host := "a.proxy", port := 1080, username := none, password := none,
         type := "http", country := none },
       { host := "b.proxy", port := 1081, username := none, password := none,
         type := "http", country := none }],
    current_index := 1 }

/-- An agent run whose final result contains the lowercase keyword
`submitted` while transcript and page carry no markers or indicators. -/
def runKeywordOnly : AgentRun :=
  { final_result := some "Form was submitted",
    memory := some "filled the form fields",
    page_text := "nothing to see", page_ok := true, page_err := "" }

/-- An attempt in which no operation raises and the agent run is
`runKeywordOnly`. -/
def attemptKeywordOnly : Attempt :=
  { can_handle := true, llm_ok := true, create_ok := true, start_ok := true,
    run_ok := true, stop_ok := true, agent_run := runKeywordOnly,
    screenshot_path := "", exc_text := "" }

/-- An agent run with no final result, a marker-free memory, and a page
without success indicators. -/
def runUnclear : AgentRun :=
  { final_result := none, memory := some "looked around the page",
    page_text := "blank page", page_ok := true, page_err := "" }

/-- An attempt in which no operation raises and the agent run is
`runUnclear`. -/
def attemptUnclear : Attempt :=
  { can_handle := true, llm_ok := true, create_ok := true, start_ok := true,
    run_ok := true, stop_ok := true, agent_run := runUnclear,
    screenshot_path := "", exc_text := "" }

/-- An attempt in which no operation raises, used to witness the cleanup
property. -/
def attemptStopWitness : Attempt :=
  { can_handle := true, llm_ok := true, create_ok := true, start_ok := true,
    run_ok := true, stop_ok := true, agent_run := runUnclear,
    screenshot_path := "shot.png", exc_text := "" }

/-- An agent run whose memory reports a captcha (lowercase, exercising the
case-insensitive scan) and carries no success markers. -/
def runCaptcha : AgentRun :=
  { final_result := none, memory := some "a captcha challenge appeared",
    page_text := "blank", page_ok := true, page_err := "" }

/-- An attempt in which no operation raises and the agent run is
`runCaptcha`. -/
def attemptCaptcha : Attempt :=
  { can_handle := true, llm_ok := true, create_ok := true, start_ok := true,
    run_ok := true, stop_ok := true, agent_run := runCaptcha,
    screenshot_path := "", exc_text := "" }

/-! ## Helper lemmas -/

/-- Replaying `add_step` calls adds one to `steps_completed` per successful
call. -/
theorem applySteps_steps_completed (calls : List StepCall) :
    ∀ r : ApplicationResult,
      (r.applySteps calls).steps_completed =
        r.steps_completed + calls.countP (fun c => c.success) := by
  induction calls with
  | nil => intro r; simp [ApplicationResult.applySteps]
  | cons c cs ih =>
    intro r
    show (ApplicationResult.applySteps (r.applyStepCall c) cs).steps_completed = _
    rw [ih]
    simp only [ApplicationResult.applyStepCall, ApplicationResult.add_step,
      List.countP_cons]
    cases hc : c.success
    · simp [hc]
    · simp [hc]
      omega

/-- Replaying `add_step` calls appends the corresponding steps in call
order. -/
theorem applySteps_steps (calls : List StepCall) :
    ∀ r : ApplicationResult,
      (r.applySteps calls).steps = r.steps ++ calls.map stepOfCall := by
  induction calls with
  | nil => intro r; simp [ApplicationResult.applySteps]
  | cons c cs ih =>
    intro r
    show (ApplicationResult.applySteps (r.applyStepCall c) cs).steps = _
    rw [ih]
    simp [ApplicationResult.applyStepCall, ApplicationResult.add_step, stepOfCall]

/-- Replaying `add_step` calls never changes `total_steps`. -/
theorem applySteps_total_steps (calls : List StepCall) :
    ∀ r : ApplicationResult, (r.applySteps calls).total_steps = r.total_steps := by
  induction calls with
  | nil => intro r; simp [ApplicationResult.applySteps]
  | cons c cs ih =>
    intro r
    show (ApplicationResult.applySteps (r.applyStepCall c) cs).total_steps = _
    rw [ih]
    simp [ApplicationResult.applyStepCall, ApplicationResult.add_step]

/-- A leading match is in particular a substring. -/
theorem hasSub_of_leadMatch (n h : List Char) (hm : leadMatch n h = true) :
    hasSub n h = true := by
  cases h with
  | nil => simpa [hasSub] using hm
  | cons c t => simp [hasSub, hm]

/-- If `x ++ y` occurs starting at the head of `h`, then `y` occurs in `h`. -/
theorem hasSub_of_leadMatch_append (x : List Char) :
    ∀ (y h : List Char), leadMatch (x ++ y) h = true → hasSub y h = true := by
  induction x with
  | nil => intro y h hm; exact hasSub_of_leadMatch y h (by simpa using hm)
  | cons a as ih =>
    intro y h hm
    cases h with
    | nil => simp [leadMatch] at hm
    | cons b bs =>
      simp only [List.cons_append, leadMatch, Bool.and_eq_true] at hm
      have := ih y bs hm.2
      simp [hasSub, this]

/-- If the concatenation `x ++ y` occurs in `h`, so does the suffix `y`. -/
theorem hasSub_of_hasSub_append (x y : List Char) :
    ∀ h : List Char, hasSub (x ++ y) h = true → hasSub y h = true := by
  intro h
  induction h with
  | nil => intro hm; exact hasSub_of_leadMatch_append x y [] (by simpa [hasSub] using hm)
  | cons c t ih =>
    intro hm
    simp only [hasSub, Bool.or_eq_true] at hm
    rcases hm with hm | hm
    · exact hasSub_of_leadMatch_append x y (c :: t) hm
    · simp [hasSub, ih hm]

/-- A URL containing `boards.greenhouse.io` also contains `greenhouse.io`. -/
theorem strIn_greenhouse_of_boards (u : String)
    (h : strIn "boards.greenhouse.io" u = true) : strIn "greenhouse.io" u = true := by
  have hx : "boards.greenhouse.io".data = "boards.".data ++ "greenhouse.io".data := rfl
  unfold strIn at h ⊢
  rw [hx] at h
  exact hasSub_of_hasSub_append _ _ _ h

/-- A URL containing `jobs.lever.co` also contains `lever.co`. -/
theorem strIn_lever_of_jobs (u : String)
    (h : strIn "jobs.lever.co" u = true) : strIn "lever.co" u = true := by
  have hx : "jobs.lever.co".data = "jobs.".data ++ "lever.co".data := rfl
  unfold strIn at h ⊢
  rw [hx] at h
  exact hasSub_of_hasSub_append _ _ _ h

/-- When the final result triggers no success keyword, the memory holds no
success marker but mentions a captcha, classification lands in the
CAPTCHA_REQUIRED transition. -/
theorem par_captcha (ec : String → Option String) (run : AgentRun)
    (r : ApplicationResult) (now : Nat) (m : String)
    (hfr : frKeywordHit run.final_result = false)
    (hmem : run.memory = some m)
    (hs : strIn "SUCCESS:" m = false)
    (hc : strIn "CONFIRMATION:" m = false)
    (hcap : strIn "CAPTCHA" (upperStr m) = true) :
    process_automation_result ec run r now =
      r.set_failed "Captcha detected - manual intervention required"
        (some "CAPTCHA_REQUIRED") ApplicationStatus.CAPTCHA_REQUIRED now := by
  have hmne : m ≠ "" := by
    intro hm
    rw [hm] at hcap
    exact absurd hcap (by decide)
  have hbranch : memoryBranch ec run r now =
      r.set_failed "Captcha detected - manual intervention required"
        (some "CAPTCHA_REQUIRED") ApplicationStatus.CAPTCHA_REQUIRED now := by
    rw [memoryBranch, hmem]
    simp [bne_iff_ne, hmne, hs, hc, hcap]
  cases hf : run.final_result with
  | none =>
    simp only [process_automation_result, hf]
    exact hbranch
  | some fr =>
    rw [hf] at hfr
    simp only [frKeywordHit] at hfr
    simp only [process_automation_result, hf, hfr, Bool.false_eq_true, if_false]
    exact hbranch

/-- With the page readable but free of success indicators, the page fallback
lands in the FAILED / UNCLEAR_RESULT transition. -/
theorem pageBranch_unclear (ec : String → Option String) (run : AgentRun)
    (r : ApplicationResult) (now : Nat)
    (hok : run.page_ok = true)
    (hpage : pageKeywordFree run.page_text = true) :
    pageBranch ec run r now =
      r.set_failed "No clear success indicators found" (some "UNCLEAR_RESULT")
        ApplicationStatus.FAILED now := by
  have hfilter : page_success_indicators.filter
      (fun ind => strIn ind (lowerStr run.page_text)) = [] := by
    refine List.filter_eq_nil_iff.mpr ?_
    intro a ha
    simp only [pageKeywordFree, List.all_eq_true] at hpage
    simpa using hpage a ha
  rw [pageBranch, hok]
  simp [hfilter]

/-- When no marker, keyword or page indicator is present, classification lands
in the FAILED / UNCLEAR_RESULT transition. -/
theorem par_unclear (ec : String → Option String) (run : AgentRun)
    (r : ApplicationResult) (now : Nat)
    (hfr : frKeywordHit run.final_result = false)
    (hmem : memMarkerFree run.memory = true)
    (hok : run.page_ok = true)
    (hpage : pageKeywordFree run.page_text = true) :
    process_automation_result ec run r now =
      r.set_failed "No clear success indicators found" (some "UNCLEAR_RESULT")
        ApplicationStatus.FAILED now := by
  have hbranch : memoryBranch ec run r now =
      r.set_failed "No clear success indicators found" (some "UNCLEAR_RESULT")
        ApplicationStatus.FAILED now := by
    cases hm : run.memory with
    | none =>
      simp only [memoryBranch, hm]
      exact pageBranch_unclear ec run r now hok hpage
    | some m =>
      rw [hm] at hmem
      simp only [memMarkerFree, Bool.and_eq_true, Bool.not_eq_eq_eq_not,
        Bool.not_true] at hmem
      obtain ⟨⟨⟨⟨hs, hc⟩, hcap⟩, herr⟩, hfail⟩ := hmem
      by_cases hme : m = ""
      · simp only [memoryBranch, hm, hme]
        simp only [bne_self_eq_false, Bool.false_eq_true, if_false]
        exact pageBranch_unclear ec run r now hok hpage
      · simp only [memoryBranch, hm]
        rw [if_pos (by simpa [bne_iff_ne] using hme)]
        simp only [hs, hc, hcap, herr, hfail, Bool.or_self, Bool.false_eq_true,
          if_false]
        exact pageBranch_unclear ec run r now hok hpage
  cases hf : run.final_result with
  | none =>
    simp only [process_automation_result, hf]
    exact hbranch
  | some fr =>
    rw [hf] at hfr
    simp only [frKeywordHit] at hfr
    simp only [process_automation_result, hf, hfr, Bool.false_eq_true, if_false]
    exact hbranch

/-! ## Claim theorems -/

/-- Claim C1, counterexample: immediately after the transition
`set_failed("boom", status=SUCCESS)` the equality
`success == (status == SUCCESS)` does NOT hold — `set_failed` forces
`success = False` while installing `status = SUCCESS`. -/
theorem success_matches_status_set_failed_cex :
    (sampleFailedResult.set_failed "boom" none ApplicationStatus.SUCCESS 5).success
        = false ∧
    (sampleFailedResult.set_failed "boom" none ApplicationStatus.SUCCESS 5).status
        = ApplicationStatus.SUCCESS ∧
    ¬((sampleFailedResult.set_failed "boom" none ApplicationStatus.SUCCESS 5).success
        = ((sampleFailedResult.set_failed "boom" none
            ApplicationStatus.SUCCESS 5).status == ApplicationStatus.SUCCESS)) := by
  refine ⟨by decide, by decide, by decide⟩

/-- Claim C1, amended: `success == (status == SUCCESS)` holds at construction
(which rejects every mismatched pair), after every `set_completed`, and after
every `set_failed` whose status argument is not SUCCESS; `set_failed` always
forces `success = False`, so the one excluded case `set_failed(..., SUCCESS)`
breaks the equality. -/
theorem success_matches_status_amended :
    (∀ (ji : String) (ui : Option String) (st : ApplicationStatus) (su : Bool)
        (sa : Nat) (ca : String) (ts : Nat),
      (mkApplicationResult ji ui st su sa ca ts).isOk
        = (su == (st == ApplicationStatus.SUCCESS))) ∧
    (∀ (ji : String) (ui : Option String) (st : ApplicationStatus) (su : Bool)
        (sa : Nat) (ca : String) (ts : Nat) (r : ApplicationResult),
      mkApplicationResult ji ui st su sa ca ts = Except.ok r →
      r.success = (r.status == ApplicationStatus.SUCCESS)) ∧
    (∀ (r : ApplicationResult) (st : ApplicationStatus) (conf : Option String)
        (now : Nat),
      (r.set_completed st conf now).success
        = ((r.set_completed st conf now).status == ApplicationStatus.SUCCESS)) ∧
    (∀ (r : ApplicationResult) (msg : String) (et : Option String)
        (st : ApplicationStatus) (now : Nat),
      st ≠ ApplicationStatus.SUCCESS →
      (r.set_failed msg et st now).success
        = ((r.set_failed msg et st now).status == ApplicationStatus.SUCCESS)) := by
  refine ⟨?_, ?_, ?_, ?_⟩
  · intro ji ui st su sa ca ts
    cases st <;> cases su <;> rfl
  · intro ji ui st su sa ca ts r h
    revert h
    cases st <;> cases su <;> simp [mkApplicationResult] <;> rintro rfl <;> rfl
  · intro r st conf now
    simp [ApplicationResult.set_completed]
  · intro r msg et st now h
    cases st
    · exact absurd rfl h
    all_goals rfl

/-- Witness: the amended C1 statement applied to a concrete `set_failed`
transition with status FORM_ERROR. -/
theorem success_matches_status_amended_witness :
    (sampleFailedResult.set_failed "x" none ApplicationStatus.FORM_ERROR 3).success
      = ((sampleFailedResult.set_failed "x" none
          ApplicationStatus.FORM_ERROR 3).status == ApplicationStatus.SUCCESS) :=
  success_matches_status_amended.2.2.2 sampleFailedResult "x" none
    ApplicationStatus.FORM_ERROR 3 (by decide)

/-- Claim C2, counterexample: after the terminal transition
`set_completed(SUCCESS, "CONF123")` (the result is finalized:
`completed_at` is stamped), a further `set_failed` call raises nothing and
silently mutates the already-finalized result — the status flips from SUCCESS
to FAILED and the completion timestamp is overwritten. -/
theorem finalize_once_cex :
    (sampleFailedResult.set_completed ApplicationStatus.SUCCESS
        (some "CONF123") 1).completed_at = some 1 ∧
    ((sampleFailedResult.set_completed ApplicationStatus.SUCCESS
        (some "CONF123") 1).set_failed "late" none
        ApplicationStatus.FAILED 2).status = ApplicationStatus.FAILED ∧
    ((sampleFailedResult.set_completed ApplicationStatus.SUCCESS
        (some "CONF123") 1).set_failed "late" none
        ApplicationStatus.FAILED 2).completed_at = some 2 ∧
    ((sampleFailedResult.set_completed ApplicationStatus.SUCCESS
        (some "CONF123") 1).set_failed "late" none ApplicationStatus.FAILED 2)
      ≠ (sampleFailedResult.set_completed ApplicationStatus.SUCCESS
          (some "CONF123") 1) := by
  refine ⟨by decide, by decide, by decide, by decide⟩

/-- Claim C2, amended: neither terminal transition guards against
re-finalization — on an already-finalized result (`completed_at` stamped),
`set_failed` and `set_completed` still succeed and overwrite the terminal
state in place. -/
theorem refinalize_overwrites (r : ApplicationResult) (m : String)
    (et : Option String) (st : ApplicationStatus) (conf : Option String)
    (now : Nat) (_hfin : r.completed_at ≠ none) :
    ((r.set_failed m et st now).status = st ∧
     (r.set_failed m et st now).success = false ∧
     (r.set_failed m et st now).completed_at = some now ∧
     (r.set_failed m et st now).error_message = some m) ∧
    ((r.set_completed st conf now).status = st ∧
     (r.set_completed st conf now).completed_at = some now) := by
  exact ⟨⟨rfl, rfl, rfl, rfl⟩, ⟨rfl, rfl⟩⟩

/-- Witness: the amended C2 statement applied to a concrete finalized
result. -/
theorem refinalize_overwrites_witness :
    (((sampleFailedResult.set_completed ApplicationStatus.SUCCESS
        (some "CONF123") 1).set_failed "late" none
        ApplicationStatus.FAILED 2).status = ApplicationStatus.FAILED ∧
     ((sampleFailedResult.set_completed ApplicationStatus.SUCCESS
        (some "CONF123") 1).set_failed "late" none
        ApplicationStatus.FAILED 2).success = false ∧
     ((sampleFailedResult.set_completed ApplicationStatus.SUCCESS
        (some "CONF123") 1).set_failed "late" none
        ApplicationStatus.FAILED 2).completed_at = some 2 ∧
     ((sampleFailedResult.set_completed ApplicationStatus.SUCCESS
        (some "CONF123") 1).set_failed "late" none
        ApplicationStatus.FAILED 2).error_message = some "late") ∧
    (((sampleFailedResult.set_completed ApplicationStatus.SUCCESS
        (some "CONF123") 1).set_completed ApplicationStatus.FAILED none
        2).status = ApplicationStatus.FAILED ∧
     ((sampleFailedResult.set_completed ApplicationStatus.SUCCESS
        (some "CONF123") 1).set_completed ApplicationStatus.FAILED none
        2).completed_at = some 2) :=
  refinalize_overwrites
    (sampleFailedResult.set_completed ApplicationStatus.SUCCESS
      (some "CONF123") 1) "late" none ApplicationStatus.FAILED none 2
    (by decide)

/-- Claim C9, counterexample: a result created with `total_steps = 1` and hit
by two successful `add_step` calls ends with `steps_completed = 2 > 1 =
total_steps` — `add_step` does not enforce the bound. -/
theorem steps_bound_cex :
    mkApplicationResult "job-9" none ApplicationStatus.FAILED false 0 "generic" 1
      = Except.ok sampleResultT1 ∧
    0 < sampleResultT1.total_steps ∧
    (sampleResultT1.applySteps twoGoodCalls).total_steps = 1 ∧
    (sampleResultT1.applySteps twoGoodCalls).steps_completed = 2 ∧
    ¬((sampleResultT1.applySteps twoGoodCalls).steps_completed
        ≤ (sampleResultT1.applySteps twoGoodCalls).total_steps) := by
  refine ⟨rfl, by decide, by decide, by decide, by decide⟩

/-- Claim C9, amended: `steps_completed ≤ total_steps` holds after every
sequence of `add_step` calls containing at most `total_steps` successful
steps (as in `apply_to_job`, which performs at most three successful calls
against `total_steps = 5`); `add_step` itself enforces no bound. -/
theorem steps_bound_amended (r : ApplicationResult) (calls : List StepCall)
    (h0 : r.steps_completed = 0)
    (hle : calls.countP (fun c => c.success) ≤ r.total_steps) :
    (r.applySteps calls).steps_completed ≤ (r.applySteps calls).total_steps := by
  rw [applySteps_steps_completed, applySteps_total_steps, h0]
  simpa using hle

/-- Witness: the amended C9 statement applied to a fresh `total_steps = 1`
result and one successful call. -/
theorem steps_bound_amended_witness :
    (sampleResultT1.applySteps oneGoodCall).steps_completed
      ≤ (sampleResultT1.applySteps oneGoodCall).total_steps :=
  steps_bound_amended sampleResultT1 oneGoodCall (by decide) (by decide)

/-- Claim C10: starting from any result whose `steps_completed` agrees with
the number of successful recorded steps (as every freshly constructed result
does), replaying any sequence of `add_step` calls keeps `steps_completed`
equal to the number of steps whose success flag is true, appends the steps in
call order, and each single call appends exactly one step at the end. -/
theorem steps_completed_counts_successes (r : ApplicationResult)
    (calls : List StepCall)
    (hinv : r.steps_completed = r.steps.countP (fun s => s.success)) :
    (r.applySteps calls).steps_completed
      = (r.applySteps calls).steps.countP (fun s => s.success) ∧
    (r.applySteps calls).steps = r.steps ++ calls.map stepOfCall ∧
    (∀ c : StepCall, (r.applyStepCall c).steps = r.steps ++ [stepOfCall c]) := by
  refine ⟨?_, applySteps_steps calls r, ?_⟩
  · rw [applySteps_steps_completed, applySteps_steps, hinv, List.countP_append,
      List.countP_map]
    rfl
  · intro c
    simp [ApplicationResult.applyStepCall, ApplicationResult.add_step, stepOfCall]

/-- Witness: C10 applied to the fresh pending result and two successful
calls. -/
theorem steps_completed_counts_successes_witness :
    (sampleFailedResult.applySteps twoGoodCalls).steps_completed
      = (sampleFailedResult.applySteps twoGoodCalls).steps.countP
          (fun s => s.success) :=
  (steps_completed_counts_successes sampleFailedResult twoGoodCalls (by decide)).1

/-- Claim C4, counterexample: for host `"http://proxy.x.com"`, port `8080`,
scheme `"http"`, the composed proxy server string is NOT
`"http://proxy.x.com:8080"` — no scheme stripping happens. -/
theorem proxy_server_string_cex :
    (cfgC4.to_playwright_proxy).map PlaywrightProxy.server
      ≠ some "http://proxy.x.com:8080" := by
  decide

/-- Claim C4, amended: `to_playwright_proxy` composes
`f"{type}://{host}:{port}"` from the stored host verbatim, so a host that
already embeds a scheme yields a double-scheme server string: the
host-sanitization scenario composes exactly
`"http://http://proxy.x.com:8080"`, and in general an `"http://..."` host is
passed through unstripped. -/
theorem proxy_server_double_scheme :
    (cfgC4.to_playwright_proxy).map PlaywrightProxy.server
      = some "http://http://proxy.x.com:8080" ∧
    (∀ (h : String) (p : Nat) (u pw : Option String),
      ((ProxyConfig.mk true (some ("http://" ++ h)) (some p) u pw "http"
          false).to_playwright_proxy).map PlaywrightProxy.server
        = some ("http://http://" ++ h ++ ":" ++ toString p)) := by
  constructor
  · decide
  · intro h p u pw
    have hne : (("http://" ++ h) != "") = true := by
      rw [bne_iff_ne]
      intro hEq
      have hdata : "http://".data ++ h.data = ([] : List Char) := by
        rw [← String.data_append]
        rw [hEq]
      have : "http://".data = ([] : List Char) := (List.append_eq_nil.mp hdata).1
      exact absurd this (by decide)
    simp only [ProxyConfig.to_playwright_proxy, hne, if_true]
    cases u <;> cases pw <;>
      · simp only [showOptNat, Option.map_some, Option.some.injEq,
          String.append_assoc]
        rw [← String.append_assoc]
        congr 1

/-- Claim C5: the rotation index is not clamped by `remove_proxy`, so
`get_next_proxy` can raise. Concretely: on the two-element pool, one
`get_next_proxy` call advances the index to 1 and hands out `a.proxy`;
removing `a.proxy` leaves a one-element pool with index 1; the next
`get_next_proxy` call then evaluates `self.proxies[1]` on a one-element list
and raises `IndexError` instead of returning a proxy or `None`. -/
theorem get_next_proxy_index_error :
    pmTwo.get_next_proxy
      = Except.ok
          (some (proxyConfigOfServer
            { host := "a.proxy", port := 1080, username := none,
              password := none, type := "http", country := none }),
           pmTwoAfterNext) ∧
    (pmTwoAfterNext.remove_proxy "a.proxy" 1080).proxies.length = 1 ∧
    (pmTwoAfterNext.remove_proxy "a.proxy" 1080).current_index = 1 ∧
    (pmTwoAfterNext.remove_proxy "a.proxy" 1080).get_next_proxy
      = Except.error "IndexError: list index out of range" := by
  refine ⟨rfl, by decide, by decide, rfl⟩

/-- Claim C6, counterexample: the URL
`https://jobs.jobvite.com/acme/job/1` contains `jobvite.com`, yet
`detect_company_type` returns `"generic"`, not `"jobvite"` — the engine
dispatcher has no jobvite branch. -/
theorem detect_company_type_jobvite_cex :
    strIn "jobvite.com" (lowerStr "https://jobs.jobvite.com/acme/job/1") = true ∧
    detect_company_type "https://jobs.jobvite.com/acme/job/1" = "generic" ∧
    ("generic" : String) ≠ "jobvite" := by
  refine ⟨by decide, by decide, by decide⟩

/-- Claim C6, amended: `detect_company_type` is first-match precedence over
the table linkedin.com → linkedin, greenhouse.io → greenhouse, lever.co →
lever, myworkdayjobs.com/workday.com → workday, indeed.com → indeed,
bamboohr.com → bamboohr, else generic (no jobvite branch, linkedin first);
it maps the three cited URLs to greenhouse/linkedin/generic and every
jobvite.com URL to generic. The cited table with a jobvite entry is the URL
chain of `JobData.get_company_identifier`, which does return `"jobvite"` for
a URL containing `jobvite.com` that matches none of its earlier patterns. -/
theorem ats_dispatch_amended :
    (∀ url : String,
      detect_company_type url = firstMatchATS detectTable (lowerStr url)) ∧
    detect_company_type "https://job-boards.greenhouse.io/acme/jobs/1"
      = "greenhouse" ∧
    detect_company_type "https://www.linkedin.com/jobs/view/55" = "linkedin" ∧
    detect_company_type "https://careers.acme.com/apply/1" = "generic" ∧
    detect_company_type "https://jobs.jobvite.com/acme/job/1" = "generic" ∧
    (∀ url : String,
      strIn "jobvite.com" (lowerStr url) = true →
      strIn "greenhouse.io" (lowerStr url) = false →
      strIn "lever.co" (lowerStr url) = false →
      strIn "myworkday.com" (lowerStr url) = false →
      strIn "workday.com" (lowerStr url) = false →
      strIn "linkedin.com" (lowerStr url) = false →
      strIn "indeed.com" (lowerStr url) = false →
      get_company_identifier none url = "jobvite") := by
  refine ⟨?_, by decide, by decide, by decide, by decide, ?_⟩
  · intro url
    cases hli : strIn "linkedin.com" (lowerStr url) with
    | true => simp [detect_company_type, firstMatchATS, detectTable, hli]
    | false =>
    cases hgh : strIn "greenhouse.io" (lowerStr url) with
    | true => simp [detect_company_type, firstMatchATS, detectTable, hli, hgh]
    | false =>
    have hbo : strIn "boards.greenhouse.io" (lowerStr url) = false := by
      cases hb : strIn "boards.greenhouse.io" (lowerStr url) with
      | false => rfl
      | true =>
        rw [strIn_greenhouse_of_boards (lowerStr url) hb] at hgh
        exact absurd hgh (by decide)
    cases hlev : strIn "lever.co" (lowerStr url) with
    | true =>
      simp [detect_company_type, firstMatchATS, detectTable, hli, hgh, hbo, hlev]
    | false =>
    have hjl : strIn "jobs.lever.co" (lowerStr url) = false := by
      cases hb : strIn "jobs.lever.co" (lowerStr url) with
      | false => rfl
      | true =>
        rw [strIn_lever_of_jobs (lowerStr url) hb] at hlev
        exact absurd hlev (by decide)
    cases hwj : strIn "myworkdayjobs.com" (lowerStr url) with
    | true =>
      simp [detect_company_type, firstMatchATS, detectTable, hli, hgh, hbo,
        hlev, hjl, hwj]
    | false =>
    cases hwc : strIn "workday.com" (lowerStr url) with
    | true =>
      simp [detect_company_type, firstMatchATS, detectTable, hli, hgh, hbo,
        hlev, hjl, hwj, hwc]
    | false =>
    cases hin : strIn "indeed.com" (lowerStr url) with
    | true =>
      simp [detect_company_type, firstMatchATS, detectTable, hli, hgh, hbo,
        hlev, hjl, hwj, hwc, hin]
    | false =>
    cases hba : strIn "bamboohr.com" (lowerStr url) <;>
      simp [detect_company_type, firstMatchATS, detectTable, hli, hgh, hbo,
        hlev, hjl, hwj, hwc, hin, *]
  · intro url hj hgh hlev hmw hwc hli hin
    simp [get_company_identifier, get_company_identifier_url, hj, hgh, hlev,
      hmw, hwc, hli, hin]

/-- Witness: the amended C6 statement applied to a concrete jobvite URL. -/
theorem ats_dispatch_amended_witness :
    get_company_identifier none "https://jobs.jobvite.com/acme/job/1"
      = "jobvite" :=
  ats_dispatch_amended.2.2.2.2.2 "https://jobs.jobvite.com/acme/job/1"
    (by decide) (by decide) (by decide) (by decide) (by decide) (by decide)
    (by decide)

/-- Claim C7: on every attempt in which a browser session was created (URL
validation, LLM fetch and session construction all succeed), the browser stop
operation is invoked exactly once before `apply_to_job` returns — whatever
happens during start, agent execution, classification, screenshot or the stop
itself. -/
theorem browser_stop_exactly_once (ec : String → Option String) (o : Attempt)
    (ji : String) (ui : Option String) (co : String) (t : Nat)
    (h1 : o.can_handle = true) (h2 : o.llm_ok = true)
    (h3 : o.create_ok = true) :
    (apply_to_job ec o ji ui co t).2 = 1 := by
  rw [apply_to_job]
  simp only [h1, h2, h3, if_true]
  cases hs : o.start_ok
  · simp
  · cases hr : o.run_ok
    · simp
    · simp only [Bool.true_eq_false, if_false, if_true]
      split_ifs <;> rfl

/-- Witness: the cleanup property applied to a concrete exception-free
attempt. -/
theorem browser_stop_exactly_once_witness :
    (apply_to_job (fun _ => none) attemptStopWitness "j7" none "generic" 0).2
      = 1 :=
  browser_stop_exactly_once (fun _ => none) attemptStopWitness "j7" none
    "generic" 0 rfl rfl rfl

/-- Claim C8: whenever the agent memory contains `CAPTCHA` (case-insensitive)
and no success marker (`SUCCESS:`/`CONFIRMATION:` absent from memory, no
success keyword in the agent final result), an exception-free attempt
finalizes with status CAPTCHA_REQUIRED and `success = False`. -/
theorem captcha_classification (ec : String → Option String) (o : Attempt)
    (ji : String) (ui : Option String) (co : String) (t : Nat) (m : String)
    (h1 : o.can_handle = true) (h2 : o.llm_ok = true) (h3 : o.create_ok = true)
    (h4 : o.start_ok = true) (h5 : o.run_ok = true) (h6 : o.stop_ok = true)
    (hmem : o.agent_run.memory = some m)
    (hfr : frKeywordHit o.agent_run.final_result = false)
    (hs : strIn "SUCCESS:" m = false)
    (hc : strIn "CONFIRMATION:" m = false)
    (hcap : strIn "CAPTCHA" (upperStr m) = true) :
    (apply_to_job ec o ji ui co t).1.status = ApplicationStatus.CAPTCHA_REQUIRED ∧
    (apply_to_job ec o ji ui co t).1.success = false := by
  rw [apply_to_job]
  simp only [h1, h2, h3, h4, h5, h6, if_true]
  rw [par_captcha ec o.agent_run _ t m hfr hmem hs hc hcap]
  cases hsc : o.screenshot_path != "" <;>
    simp [ApplicationResult.set_failed, hsc]

/-- Witness: the captcha classification applied to a concrete attempt whose
memory mentions a lowercase captcha. -/
theorem captcha_classification_witness :
    (apply_to_job (fun _ => none) attemptCaptcha "j8" none "generic" 0).1.status
      = ApplicationStatus.CAPTCHA_REQUIRED ∧
    (apply_to_job (fun _ => none) attemptCaptcha "j8" none "generic" 0).1.success
      = false :=
  captcha_classification (fun _ => none) attemptCaptcha "j8" none "generic" 0
    "a captcha challenge appeared" rfl rfl rfl rfl rfl rfl rfl (by decide)
    (by decide) (by decide) (by decide)

/-- Claim C3, counterexample: an attempt whose transcript and memory contain
none of the five markers and whose final page text contains none of the fixed
success keywords is nonetheless finalized as SUCCESS, because the
classification first scans the agent final result for lowercase keywords and
`"Form was submitted"` contains `submitted`. -/
theorem unclear_result_claim_cex :
    memMarkerFree attemptKeywordOnly.agent_run.memory = true ∧
    pageKeywordFree attemptKeywordOnly.agent_run.page_text = true ∧
    (apply_to_job (fun _ => none) attemptKeywordOnly "j1" none "generic"
        0).1.status = ApplicationStatus.SUCCESS ∧
    (apply_to_job (fun _ => none) attemptKeywordOnly "j1" none "generic"
        0).1.success = true ∧
    (apply_to_job (fun _ => none) attemptKeywordOnly "j1" none "generic"
        0).1.error_type ≠ some "UNCLEAR_RESULT" := by
  refine ⟨by decide, by decide, by decide, by decide, by decide⟩

/-- Claim C3, amended: when additionally the agent final result triggers no
success keyword, classification does set FAILED with kind UNCLEAR_RESULT
(second conjunct), and the attempt is never reported as SUCCESS; but the
finalize block of `apply_to_job` then re-finalizes the FAILED result, so the
returned result carries status FAILED, `success = False`, message
`"Application process completed but success unclear"` and error kind None —
the UNCLEAR_RESULT kind does not survive finalization. -/
theorem unclear_result_amended (ec : String → Option String) (o : Attempt)
    (ji : String) (ui : Option String) (co : String) (t : Nat)
    (h1 : o.can_handle = true) (h2 : o.llm_ok = true) (h3 : o.create_ok = true)
    (h4 : o.start_ok = true) (h5 : o.run_ok = true) (h6 : o.stop_ok = true)
    (hfr : frKeywordHit o.agent_run.final_result = false)
    (hmem : memMarkerFree o.agent_run.memory = true)
    (hok : o.agent_run.page_ok = true)
    (hpage : pageKeywordFree o.agent_run.page_text = true) :
    ((apply_to_job ec o ji ui co t).1.status = ApplicationStatus.FAILED ∧
     (apply_to_job ec o ji ui co t).1.success = false ∧
     (apply_to_job ec o ji ui co t).1.error_type = none ∧
     (apply_to_job ec o ji ui co t).1.error_message
       = some "Application process completed but success unclear") ∧
    (∀ (r : ApplicationResult) (now : Nat),
      process_automation_result ec o.agent_run r now
        = r.set_failed "No clear success indicators found"
            (some "UNCLEAR_RESULT") ApplicationStatus.FAILED now) := by
  have hpar : ∀ (r : ApplicationResult) (now : Nat),
      process_automation_result ec o.agent_run r now
        = r.set_failed "No clear success indicators found"
            (some "UNCLEAR_RESULT") ApplicationStatus.FAILED now :=
    fun r now => par_unclear ec o.agent_run r now hfr hmem hok hpage
  refine ⟨?_, hpar⟩
  have e0 : strIn "success" (lowerStr "") = false := by decide
  rw [apply_to_job]
  simp only [h1, h2, h3, h4, h5, h6, if_true]
  rw [hpar]
  cases hsc : o.screenshot_path != "" <;>
    simp [ApplicationResult.set_failed, ApplicationResult.add_step, hsc,
      List.filter_cons, List.filter_nil, e0, metaGet]

/-- Witness: the amended C3 statement applied to a concrete marker-free
attempt. -/
theorem unclear_result_amended_witness :
    (apply_to_job (fun _ => none) attemptUnclear "j3" none "generic"
        0).1.status = ApplicationStatus.FAILED ∧
    (apply_to_job (fun _ => none) attemptUnclear "j3" none "generic"
        0).1.error_type = none :=
  have h := unclear_result_amended (fun _ => none) attemptUnclear "j3" none
    "generic" 0 rfl rfl rfl rfl rfl rfl (by decide) (by decide) rfl (by decide)
  ⟨h.1.1, h.1.2.2.1⟩
